import Mathlib

set_option maxRecDepth 100000

deriving instance DecidableEq for Except

/-!
Verification of the wireguard-configure data model and rendering rules.

The Rust source is shallowly embedded: each Rust function that the claims
reference is translated into an executable Lean definition.  External
collaborator types (the ipnet crate's address types, the file system,
serde_yaml) are modelled explicitly; comments on each definition say what is
modelled and from where.
-/

namespace WgConf

/-- Models `std::net::Ipv4Addr` (the repository's examples only exercise the
v4 flavour of `IpAddr`): four octets, rendered dotted-decimal by `Display`. -/
structure Ipv4 where
  o1 : Nat
  o2 : Nat
  o3 : Nat
  o4 : Nat
deriving DecidableEq, Repr

/-- `Display` for `Ipv4` as in `std`: dotted decimal. -/
def Ipv4.render (a : Ipv4) : String :=
  toString a.o1 ++ "." ++ toString a.o2 ++ "." ++ toString a.o3 ++ "." ++ toString a.o4

/-- Models the ipnet crate's `IpNet` (v4 flavour): an address plus a network
length, rendered `addr/len` by `Display`. -/
structure IpNet where
  addr : Ipv4
  netLen : Nat
deriving DecidableEq, Repr

/-- `Display` for `IpNet` as in the ipnet crate: `addr/len`. -/
def IpNet.render (n : IpNet) : String :=
  n.addr.render ++ "/" ++ toString n.netLen

/-- Models ipnet's `From<IpAddr> for IpNet`: the address with the full
host-network length (32 for v4). -/
def IpNet.fromAddr (a : Ipv4) : IpNet :=
  { addr := a, netLen := 32 }

/-- `AddrPort` from src/addrport.rs: a host string and a port. -/
structure AddrPort where
  address : String
  port : Nat
deriving DecidableEq, Repr

/-- `Display` for `AddrPort` (src/addrport.rs): `address:port`. -/
def AddrPort.render (ap : AddrPort) : String :=
  ap.address ++ ":" ++ toString ap.port

/-- `TableType` from src/endpoint.rs. `Custom` carries a `u32`; it is
modelled as a `Nat`, with the `< 2^32` bound made explicit where it
matters (parsing). -/
inductive TableType where
  | off : TableType
  | auto : TableType
  | custom (value : Nat) : TableType
deriving DecidableEq, Repr

/-- ASCII lower-casing of one character; agrees with Rust's
`str::to_lowercase` on ASCII input (the tokens the parser compares
against are ASCII). -/
def lowerChar (c : Char) : Char :=
  if 65 ≤ c.toNat ∧ c.toNat ≤ 90 then Char.ofNat (c.toNat + 32) else c

/-- ASCII lower-casing of a string (models `str::to_lowercase`). -/
def asciiLower (s : String) : String :=
  ⟨s.data.map lowerChar⟩

/-- Whether a character is an ASCII decimal digit (codepoints 48-57). -/
def isDigitChar (c : Char) : Bool :=
  decide (48 ≤ c.toNat ∧ c.toNat ≤ 57)

/-- Digit-list to number, folding left as Rust's `u32::from_str` does. -/
def digitsToNat (cs : List Char) : Nat :=
  cs.foldl (fun a c => 10 * a + (c.toNat - 48)) 0

/-- Models `str::parse::<u32>()`: an optional leading `+`, then one or more
ASCII digits, value bounded by `2^32`; anything else fails. -/
def parseU32 (s : String) : Option Nat :=
  let cs := if s.data.head? = some '+' then s.data.tail else s.data
  if cs ≠ [] ∧ cs.all isDigitChar then
    let v := digitsToNat cs
    if v < 2 ^ 32 then some v else none
  else none

/-- `TableType`'s custom `Deserialize` visitor (src/endpoint.rs
`TableType::deserialize`, `visit_str`): lower-case the input, map `off` and
`auto` to the corresponding variants, otherwise parse an unsigned integer. -/
def TableType.parse (s : String) : Option TableType :=
  let lowered := asciiLower s
  if lowered = "off" then some TableType.off
  else if lowered = "auto" then some TableType.auto
  else (parseU32 lowered).map TableType.custom

/-- Decimal rendering of a `Nat`, most significant digit first (models
Rust's `u32::to_string`).  Structural recursion on a fuel argument; any
fuel above `n` is adequate. -/
def natDecimalAux : Nat → Nat → List Char → List Char
  | 0, _, acc => acc
  | fuel + 1, n, acc =>
    let d := Char.ofNat (48 + n % 10)
    if n < 10 then d :: acc else natDecimalAux fuel (n / 10) (d :: acc)

/-- Decimal rendering of a `Nat` as a string. -/
def natDecimal (n : Nat) : String :=
  ⟨natDecimalAux (n + 1) n []⟩

/-- `Display` for `TableType` (src/endpoint.rs): `off`, `auto`, or the
decimal number. -/
def TableType.render : TableType → String
  | TableType.off => "off"
  | TableType.auto => "auto"
  | TableType.custom value => natDecimal value

/-- `Router` from src/endpoint.rs: the struct's fields, in source order.
Rust's `Option<T>` becomes `Option`; `u16` ports and MTUs become `Nat`
(their bounds play no role in the rendering rules). -/
structure Router where
  name : String
  internal_address : IpNet
  external_address : AddrPort
  private_key : String
  public_key : String
  mtu : Option Nat
  table : Option TableType
  preup : Option String
  postup : Option String
  predown : Option String
  postdown : Option String
deriving DecidableEq, Repr

/-- `Peer` from src/endpoint.rs: the struct's fields, in source order. -/
structure Peer where
  name : String
  internal_address : Ipv4
  allowed_ips : List IpNet
  dns : Option Ipv4
  persistent_keepalive : Option Nat
  private_key : Option String
  public_key : String
  mtu : Option Nat
  table : Option TableType
  preup : Option String
  postup : Option String
  predown : Option String
  postdown : Option String
deriving DecidableEq, Repr

/-- The line contributed by an optional field: one formatted line when the
field is set, no line when it is unset (the `if let Some(x) = ... push`
pattern used throughout src/endpoint.rs). -/
def optLine {α : Type} (o : Option α) (f : α → String) : List String :=
  match o with
  | some x => [f x]
  | none => []

/-- The `lines` vector built by `Router::interface_str`
(src/endpoint.rs lines 182-230), before the final join. -/
def Router.interface_lines (r : Router) : List String :=
  ["# " ++ r.name,
   "[Interface]",
   "Address = " ++ r.internal_address.render,
   "PrivateKey = " ++ r.private_key,
   "ListenPort = " ++ toString r.external_address.port]
  ++ optLine r.mtu (fun mtu => "MTU = " ++ toString mtu)
  ++ optLine r.table (fun table => "Table = " ++ table.render)
  ++ optLine r.preup (fun preup => "PreUp = " ++ preup)
  ++ optLine r.postup (fun postup => "PostUp = " ++ postup)
  ++ optLine r.predown (fun predown => "PreDown = " ++ predown)
  ++ optLine r.postdown (fun postdown => "PostDown = " ++ postdown)

/-- `Router::interface_str` (src/endpoint.rs): the joined lines. -/
def Router.interface_str (r : Router) : String :=
  String.intercalate "\n" r.interface_lines

/-- The `lines` vector built by `Router::peer_str`
(src/endpoint.rs lines 233-252): name comment, `[Peer]` header, the peer's
public key, and an `AllowedIPs` line rendering `IpNet::from(peer.internal_address)`. -/
def Router.peer_lines (_r : Router) (peer : Peer) : List String :=
  ["# " ++ peer.name,
   "[Peer]",
   "PublicKey = " ++ peer.public_key,
   "AllowedIPs = " ++ (IpNet.fromAddr peer.internal_address).render]

/-- `Router::peer_str` (src/endpoint.rs): the joined lines. -/
def Router.peer_str (r : Router) (peer : Peer) : String :=
  String.intercalate "\n" (r.peer_lines peer)

/-- The `lines` vector built in the `Some(private_key)` branch of
`Peer::interface_str` (src/endpoint.rs lines 356-412). -/
def Peer.interface_lines (p : Peer) (private_key : String) : List String :=
  ["# " ++ p.name,
   "[Interface]",
   "PrivateKey = " ++ private_key,
   "Address = " ++ (IpNet.fromAddr p.internal_address).render]
  ++ optLine p.dns (fun dns => "DNS = " ++ dns.render)
  ++ optLine p.mtu (fun mtu => "MTU = " ++ toString mtu)
  ++ optLine p.table (fun table => "Table = " ++ table.render)
  ++ optLine p.preup (fun preup => "PreUp = " ++ preup)
  ++ optLine p.postup (fun postup => "PostUp = " ++ postup)
  ++ optLine p.predown (fun predown => "PreDown = " ++ predown)
  ++ optLine p.postdown (fun postdown => "PostDown = " ++ postdown)

/-- `Peer::interface_str` (src/endpoint.rs): `None` when `private_key` is
absent, otherwise the joined lines. -/
def Peer.interface_str (p : Peer) : Option String :=
  match p.private_key with
  | some private_key => some (String.intercalate "\n" (p.interface_lines private_key))
  | none => none

/-- The `lines` vector built by `Peer::peer_str`
(src/endpoint.rs lines 414-448): router name comment, `[Peer]` header, the
router's public key, the router's endpoint, the peer's keepalive when set,
and the comma-joined allowed networks. -/
def Peer.peer_lines (p : Peer) (router : Router) : List String :=
  ["# " ++ router.name,
   "[Peer]",
   "PublicKey = " ++ router.public_key,
   "Endpoint = " ++ router.external_address.address ++ ":" ++ toString router.external_address.port]
  ++ optLine p.persistent_keepalive (fun keepalive => "PersistentKeepalive = " ++ toString keepalive)
  ++ ["AllowedIPs = " ++ String.intercalate ", " (p.allowed_ips.map IpNet.render)]

/-- `Peer::peer_str` (src/endpoint.rs): the joined lines. -/
def Peer.peer_str (p : Peer) (router : Router) : String :=
  String.intercalate "\n" (p.peer_lines router)

/-- `Peer::new` (src/endpoint.rs).  The external `wg` key-generation
collaborator is made an explicit argument: the generated
`(private_key, public_key)` pair. -/
def Peer.new (genKeys : String × String) (name : String) (internal_address : Ipv4) : Peer :=
  { name := name
    private_key := some genKeys.1
    public_key := genKeys.2
    internal_address := internal_address
    dns := none
    allowed_ips := []
    persistent_keepalive := none
    mtu := none
    table := none
    preup := none
    postup := none
    predown := none
    postdown := none }

/-- `Peer::with_dns` (src/endpoint.rs). -/
def Peer.with_dns (p : Peer) (dns : Option Ipv4) : Peer :=
  { p with dns := dns }

/-- `Peer::with_keepalive` (src/endpoint.rs). -/
def Peer.with_keepalive (p : Peer) (keepalive : Option Nat) : Peer :=
  { p with persistent_keepalive := keepalive }

/-- `Peer::with_vec_allowed_ips` (src/endpoint.rs). -/
def Peer.with_vec_allowed_ips (p : Peer) (allowed_ips : List IpNet) : Peer :=
  { p with allowed_ips := allowed_ips }

/-- `Peer::set_private_key` (src/endpoint.rs lines 344-346). -/
def Peer.set_private_key (p : Peer) (private_key : Option String) : Peer :=
  { p with private_key := private_key }

/-- `Peer::set_public_key` (src/endpoint.rs lines 348-350). -/
def Peer.set_public_key (p : Peer) (public_key : String) : Peer :=
  { p with public_key := public_key }

/-- `ConfigOpts` from src/configuration.rs: the transient source metadata
(a configuration name and a file path).  `PathBuf` is modelled as a
string path. -/
structure ConfigOpts where
  name : Option String
  path : Option String
deriving DecidableEq, Repr

/-- `Configuration` from src/configuration.rs: transient metadata (marked
`#[serde(skip_serializing)]` in the source), the router, and the ordered
client list. -/
structure Configuration where
  metadata : Option ConfigOpts
  router : Router
  clients : List Peer
deriving DecidableEq, Repr

/-- `Configuration::new` (src/configuration.rs lines 118-124). -/
def Configuration.new (router : Router) : Configuration :=
  { metadata := none, router := router, clients := [] }

/-- `Configuration::with_name` (src/configuration.rs lines 126-141). -/
def Configuration.with_name (c : Configuration) (name : String) : Configuration :=
  match c.metadata with
  | some metadata => { c with metadata := some { metadata with name := some name } }
  | none => { c with metadata := some { name := some name, path := none } }

/-- `Configuration::with_path` (src/configuration.rs lines 143-155). -/
def Configuration.with_path (c : Configuration) (path : String) : Configuration :=
  match c.metadata with
  | some metadata => { c with metadata := some { metadata with path := some path } }
  | none => { c with metadata := some { name := none, path := some path } }

/-- `Configuration::push_peer` (src/configuration.rs lines 157-159). -/
def Configuration.push_peer (c : Configuration) (client : Peer) : Configuration :=
  { c with clients := c.clients ++ [client] }

/-- `Configuration::client_by_name` (src/configuration.rs lines 161-163):
the first client in list order whose name matches. -/
def Configuration.client_by_name (c : Configuration) (name : String) : Option Peer :=
  c.clients.find? (fun client => client.name == name)

/-- `Configuration::client_config` (src/configuration.rs lines 165-171):
look the client up, then map the optional interface section to
`interface ++ "\n\n" ++ peer section addressed to the router`. -/
def Configuration.client_config (c : Configuration) (name : String) : Option String :=
  (c.client_by_name name).bind fun client =>
    (client.interface_str).map fun interface =>
      interface ++ "\n\n" ++ client.peer_str c.router

/-!
The persistence layer.  The on-disk store, the path helpers of `std::path`
and the serde_yaml document format are external collaborators of
src/configuration.rs; they are modelled explicitly below.  The file system
is a list of `(path, content)` pairs.
-/

/-- Splits a string at every occurrence of one separator character
(`String.splitOn` for a single-character separator, stated on the
character list so that it evaluates by kernel reduction). -/
def splitOnChar (sep : Char) (s : String) : List String :=
  go s.data []
where
  go : List Char → List Char → List String
  | [], acc => [⟨acc.reverse⟩]
  | c :: rest, acc => if c = sep then ⟨acc.reverse⟩ :: go rest [] else go rest (c :: acc)

/-- `String.startsWith`, stated on the character lists. -/
def strStartsWith (s pre : String) : Bool :=
  pre.data.isPrefixOf s.data

/-- Parses a nonempty all-digit string as a number (the number scalars of
the document format). -/
def parseNatVal (v : String) : Option Nat :=
  if v.data ≠ [] ∧ v.data.all isDigitChar then some (digitsToNat v.data) else none

/-- The file system model: an association list from paths to contents. -/
abbrev FS := List (String × String)

/-- Path lookup (models `File::open` + `read_to_string`: succeeds exactly
when the path exists). -/
def lookupFS : FS → String → Option String
  | [], _ => none
  | (k, v) :: rest, p => if k = p then some v else lookupFS rest p

/-- Replaces the content stored at a path. -/
def updateFS (fs : FS) (p v : String) : FS :=
  fs.map fun kv => if kv.1 = p then (p, v) else kv

/-- Models `Path::file_name`: the final `/`-separated component. -/
def pathFileName (p : String) : String :=
  ((splitOnChar '/' p).getLast?).getD p

/-- Models `Path::extension`: the part of the file name after the final
dot; none when there is no dot, or when the only dot leads a hidden file. -/
def pathExtension (p : String) : Option String :=
  match splitOnChar '.' (pathFileName p) with
  | [] => none
  | [_] => none
  | first :: rest =>
    if first = "" ∧ rest.length = 1 then none else rest.getLast?

/-- Models `Path::file_stem`: the file name with its final extension
stripped. -/
def pathFileStem (p : String) : Option String :=
  match splitOnChar '.' (pathFileName p) with
  | [] => none
  | [s] => if s = "" then none else some s
  | first :: rest =>
    if first = "" ∧ rest.length = 1 then some (pathFileName p)
    else some (String.intercalate "." (first :: rest.dropLast))

/-- YAML scalar for an optional number: `~` (null) when absent.  The source
derives `Serialize` with no `skip_serializing_if`, so absent options are
emitted as nulls. -/
def yamlOptNat : Option Nat → String
  | some n => toString n
  | none => "~"

/-- YAML scalar for an optional string: `~` when absent. -/
def yamlOptStr : Option String → String
  | some s => s
  | none => "~"

/-- YAML form of a `TableType` under the derived `Serialize`: unit variants
by their variant name, the newtype variant as a tagged scalar. -/
def yamlTable : TableType → String
  | TableType.off => "Off"
  | TableType.auto => "Auto"
  | TableType.custom n => "!Custom " ++ toString n

/-- YAML scalar for an optional `TableType`: `~` when absent. -/
def yamlOptTable : Option TableType → String
  | some t => yamlTable t
  | none => "~"

/-- YAML scalar for an optional address: `~` when absent. -/
def yamlOptIpv4 : Option Ipv4 → String
  | some a => a.render
  | none => "~"

/-- The `router:` block of the serialized document: every field of
`Router`, in struct order, nested mapping for the endpoint. -/
def serializeRouterLines (r : Router) : List String :=
  ["router:",
   "  name: " ++ r.name,
   "  internal_address: " ++ r.internal_address.render,
   "  external_address:",
   "    address: " ++ r.external_address.address,
   "    port: " ++ toString r.external_address.port,
   "  private_key: " ++ r.private_key,
   "  public_key: " ++ r.public_key,
   "  mtu: " ++ yamlOptNat r.mtu,
   "  table: " ++ yamlOptTable r.table,
   "  preup: " ++ yamlOptStr r.preup,
   "  postup: " ++ yamlOptStr r.postup,
   "  predown: " ++ yamlOptStr r.predown,
   "  postdown: " ++ yamlOptStr r.postdown]

/-- The `allowed_ips` lines of one serialized peer: an inline empty list,
or one sequence item per network. -/
def serializeAllowedIpsLines (ips : List IpNet) : List String :=
  match ips with
  | [] => ["    allowed_ips: []"]
  | _ => "    allowed_ips:" :: ips.map (fun ip => "      - " ++ ip.render)

/-- One serialized peer: every field of `Peer`, in struct order. -/
def serializePeerLines (p : Peer) : List String :=
  ["  - name: " ++ p.name,
   "    internal_address: " ++ p.internal_address.render]
  ++ serializeAllowedIpsLines p.allowed_ips
  ++ ["    dns: " ++ yamlOptIpv4 p.dns,
      "    persistent_keepalive: " ++ yamlOptNat p.persistent_keepalive,
      "    private_key: " ++ yamlOptStr p.private_key,
      "    public_key: " ++ p.public_key,
      "    mtu: " ++ yamlOptNat p.mtu,
      "    table: " ++ yamlOptTable p.table,
      "    preup: " ++ yamlOptStr p.preup,
      "    postup: " ++ yamlOptStr p.postup,
      "    predown: " ++ yamlOptStr p.predown,
      "    postdown: " ++ yamlOptStr p.postdown]

/-- The `clients:` block: an inline empty list, or the concatenated peer
blocks. -/
def serializeClientsLines (clients : List Peer) : List String :=
  match clients with
  | [] => ["clients: []"]
  | _ => "clients:" :: (clients.map serializePeerLines).flatten

/-- Models `serde_yaml::to_string` on a `Configuration` (spec section 6): a
structured mapping with top-level keys `router` and `clients`, field names
mirroring the attribute names, absent options as nulls, and the
`metadata` field excluded (`#[serde(skip_serializing)]`). -/
def serializeConfiguration (c : Configuration) : String :=
  String.intercalate "\n" (serializeRouterLines c.router ++ serializeClientsLines c.clients) ++ "\n"

/-- `line.drop key.length` when `line` starts with `key`. -/
def stripKey (key line : String) : Option String :=
  if strStartsWith line key then some (line.drop key.length) else none

/-- Parse an optional string scalar: `~` is null. -/
def parseOptStrVal (v : String) : Option (Option String) :=
  if v = "~" then some none else some (some v)

/-- Parse an optional number scalar: `~` is null. -/
def parseOptNatVal (v : String) : Option (Option Nat) :=
  if v = "~" then some none else (parseNatVal v).map some

/-- Parse a dotted-decimal v4 address. -/
def parseIpv4Val (v : String) : Option Ipv4 :=
  match splitOnChar '.' v with
  | [a, b, c, d] => do
    let oa ← parseNatVal a
    let ob ← parseNatVal b
    let oc ← parseNatVal c
    let od ← parseNatVal d
    if oa < 256 ∧ ob < 256 ∧ oc < 256 ∧ od < 256 then
      some { o1 := oa, o2 := ob, o3 := oc, o4 := od }
    else none
  | _ => none

/-- Parse an optional dotted-decimal v4 address. -/
def parseOptIpv4Val (v : String) : Option (Option Ipv4) :=
  if v = "~" then some none else (parseIpv4Val v).map some

/-- Parse an `addr/len` network. -/
def parseIpNetVal (v : String) : Option IpNet :=
  match splitOnChar '/' v with
  | [a, l] => do
    let addr ← parseIpv4Val a
    let len ← parseNatVal l
    if len ≤ 32 then some { addr := addr, netLen := len } else none
  | _ => none

/-- Parse an optional table scalar: `~` is null, anything else goes through
the custom `TableType` deserializer of src/endpoint.rs (which understands
only plain scalars, so the tagged form emitted for `Custom` fails). -/
def parseOptTableVal (v : String) : Option (Option TableType) :=
  if v = "~" then some none else (TableType.parse v).map some

/-- Parse the thirteen lines of the `router:` block. -/
def parseRouterLines (lines : List String) : Option (Router × List String) :=
  match lines with
  | l1 :: l2 :: l3 :: l4 :: l5 :: l6 :: l7 :: l8 :: l9 :: l10 :: l11 :: l12 :: l13 :: rest => do
    let name ← stripKey "  name: " l1
    let ia ← stripKey "  internal_address: " l2 >>= parseIpNetVal
    if l3 = "  external_address:" then
      let addr ← stripKey "    address: " l4
      let port ← stripKey "    port: " l5 >>= parseNatVal
      let privateKey ← stripKey "  private_key: " l6
      let publicKey ← stripKey "  public_key: " l7
      let mtu ← stripKey "  mtu: " l8 >>= parseOptNatVal
      let table ← stripKey "  table: " l9 >>= parseOptTableVal
      let preup ← stripKey "  preup: " l10 >>= parseOptStrVal
      let postup ← stripKey "  postup: " l11 >>= parseOptStrVal
      let predown ← stripKey "  predown: " l12 >>= parseOptStrVal
      let postdown ← stripKey "  postdown: " l13 >>= parseOptStrVal
      some ({ name := name, internal_address := ia,
              external_address := { address := addr, port := port },
              private_key := privateKey, public_key := publicKey,
              mtu := mtu, table := table, preup := preup, postup := postup,
              predown := predown, postdown := postdown }, rest)
    else none
  | _ => none

/-- Parse the `allowed_ips` lines of a peer block. -/
def parseAllowedIpsLines (lines : List String) : Option (List IpNet × List String) :=
  match lines with
  | [] => none
  | l :: rest =>
    if l = "    allowed_ips: []" then some ([], rest)
    else if l = "    allowed_ips:" then do
      let entry := rest.span (fun x => strStartsWith x "      - ")
      let ips ← (entry.1).mapM (fun x => parseIpNetVal (x.drop 8))
      some (ips, entry.2)
    else none

/-- Parse one serialized peer block. -/
def parsePeerBlock (lines : List String) : Option (Peer × List String) :=
  match lines with
  | l1 :: l2 :: rest => do
    let name ← stripKey "  - name: " l1
    let ia ← stripKey "    internal_address: " l2 >>= parseIpv4Val
    let ipsRest ← parseAllowedIpsLines rest
    match ipsRest.2 with
    | m1 :: m2 :: m3 :: m4 :: m5 :: m6 :: m7 :: m8 :: m9 :: m10 :: rest2 => do
      let dns ← stripKey "    dns: " m1 >>= parseOptIpv4Val
      let keepalive ← stripKey "    persistent_keepalive: " m2 >>= parseOptNatVal
      let privateKey ← stripKey "    private_key: " m3 >>= parseOptStrVal
      let publicKey ← stripKey "    public_key: " m4
      let mtu ← stripKey "    mtu: " m5 >>= parseOptNatVal
      let table ← stripKey "    table: " m6 >>= parseOptTableVal
      let preup ← stripKey "    preup: " m7 >>= parseOptStrVal
      let postup ← stripKey "    postup: " m8 >>= parseOptStrVal
      let predown ← stripKey "    predown: " m9 >>= parseOptStrVal
      let postdown ← stripKey "    postdown: " m10 >>= parseOptStrVal
      some ({ name := name, internal_address := ia, allowed_ips := ipsRest.1,
              dns := dns, persistent_keepalive := keepalive,
              private_key := privateKey, public_key := publicKey,
              mtu := mtu, table := table, preup := preup, postup := postup,
              predown := predown, postdown := postdown }, rest2)
    | _ => none
  | _ => none

/-- Whether the next line opens a peer item. -/
def isPeerItem (lines : List String) : Bool :=
  match lines with
  | l :: _ => strStartsWith l "  - name: "
  | [] => false

/-- Parse a sequence of peer blocks (fuel-bounded; each block consumes at
least one line, so the line count is adequate fuel). -/
def parsePeerList : Nat → List String → Option (List Peer × List String)
  | 0, lines => if isPeerItem lines then none else some ([], lines)
  | fuel + 1, lines =>
    if isPeerItem lines then do
      let pRest ← parsePeerBlock lines
      let psRest ← parsePeerList fuel pRest.2
      some (pRest.1 :: psRest.1, psRest.2)
    else some ([], lines)

/-- Parse the `clients:` block. -/
def parseClientsLines (lines : List String) : Option (List Peer × List String) :=
  match lines with
  | [] => none
  | l :: rest =>
    if l = "clients: []" then some ([], rest)
    else if l = "clients:" then parsePeerList rest.length rest
    else none

/-- Models `serde_yaml::from_str` on a `Configuration` document: the
inverse of `serializeConfiguration`, tolerating the optional YAML
document-start marker line that the format allows.  A deserialized value
carries no metadata (the field is absent from the document and defaults
to `None`). -/
def parseConfiguration (s : String) : Option Configuration :=
  let lines := splitOnChar '\n' s
  let lines := match lines with
    | "---" :: rest => rest
    | l => l
  match lines with
  | "router:" :: rest => do
    let routerRest ← parseRouterLines rest
    let clientsRest ← parseClientsLines routerRest.2
    match clientsRest.2 with
    | [""] => some { metadata := none, router := routerRest.1, clients := clientsRest.1 }
    | _ => none
  | _ => none

/-- `Configuration::from_path` (src/configuration.rs lines 51-82).  The
source opens the file first, then checks the extension, then reads and
deserializes; in the model open and read are one lookup (a read of an
already-open file does not fail), so the extension check sits between the
lookup and the parse exactly as in the source.  The `expect` calls on a
missing extension or file stem are modelled as errors marked `panic:`. -/
def Configuration.from_path (fs : FS) (path : String) : Except String Configuration :=
  match lookupFS fs path with
  | none => Except.error "No such file or directory"
  | some content =>
    match pathExtension path with
    | none => Except.error "panic: The provided path has an invalid extension."
    | some ext =>
      if ext ≠ "toml" then Except.error "The provided path does not end in .toml"
      else
        match pathFileStem path with
        | none => Except.error "panic: Invalid file stem."
        | some stem =>
          match parseConfiguration content with
          | none => Except.error "deserialization error"
          | some cfg => Except.ok ((cfg.with_name stem).with_path path)

/-- `Configuration::save` (src/configuration.rs lines 100-116).  The source
opens the path with `OpenOptions::new().read(true).write(true)` — no
`create`, no `truncate` — so the open fails when the file is absent, and
`write_all` rewrites the file from offset 0, leaving any old bytes beyond
the new length in place. -/
def Configuration.save (c : Configuration) (fs : FS) : Except String FS :=
  match c.metadata with
  | none => Except.error "Configuration metadata not found."
  | some metadata =>
    match metadata.path with
    | none => Except.error "No path defined for this configuration."
    | some path =>
      match lookupFS fs path with
      | none => Except.error "No such file or directory"
      | some old =>
        let bytes := serializeConfiguration c
        Except.ok (updateFS fs path (bytes ++ old.drop bytes.length))

/-- `handle_add_client` (src/main.rs lines 128-166).  The external key
generation performed inside `Peer::new` is the explicit `genKeys`
argument.  Returns the (possibly) mutated configuration together with the
result of the final `save`. -/
def handle_add_client (genKeys : String × String) (config : Configuration)
    (client_name : String) (internal_address : Ipv4) (allowed_ips : List IpNet)
    (dns : Option Ipv4) (persistent_keepalive : Option Nat)
    (public_key : Option String) (fs : FS) : Configuration × Except String FS :=
  if config.clients.any (fun client => client.name == client_name) then
    (config, Except.ok fs)
  else
    let peer := (((Peer.new genKeys client_name internal_address).with_dns dns).with_keepalive
      persistent_keepalive).with_vec_allowed_ips allowed_ips
    let peer := match public_key with
      | some pk => (peer.set_private_key none).set_public_key pk
      | none => peer
    let config2 := config.push_peer peer
    (config2, config2.save fs)

/-- Modelled from the spec: the peer-facing rendering that section 4.1
attributes to `render_peer` — name comment, section header, the peer's
public key, a `PersistentKeepalive` line between the public-key and
allowed-networks lines whenever the peer's keepalive is set, and an
`AllowedIPs` line that comma-joins the peer's allowed networks.  Kept
separate from `Router.peer_str` (the source translation) so the two can
be compared. -/
def routerPeerStrSpec (_r : Router) (peer : Peer) : String :=
  String.intercalate "\n"
    (["# " ++ peer.name,
      "[Peer]",
      "PublicKey = " ++ peer.public_key]
     ++ optLine peer.persistent_keepalive (fun keepalive => "PersistentKeepalive = " ++ toString keepalive)
     ++ ["AllowedIPs = " ++ String.intercalate ", " (peer.allowed_ips.map IpNet.render)])

/-- The number of lines an optional field contributes: one when set, zero
when unset. -/
def countOpt {α : Type} (o : Option α) : Nat :=
  if o.isSome then 1 else 0

/-- The invariant the Rust type system provides for `TableType::Custom`:
its payload is a `u32`. -/
def tableValid : TableType → Prop
  | TableType.custom n => n < 2 ^ 32
  | _ => True

/-!
Concrete fixtures, used by witnesses and counterexamples.  They mirror the
`example_configuration` of src/main.rs (key material abbreviated: the keys
are opaque strings to everything modelled here).
-/

/-- The example router of src/main.rs: `vpn-router`, internal network
`10.0.1.1/24`, reachable at `vpn.com:31337`. -/
def testRouter : Router :=
  { name := "vpn-router"
    internal_address := { addr := { o1 := 10, o2 := 0, o3 := 1, o4 := 1 }, netLen := 24 }
    external_address := { address := "vpn.com", port := 31337 }
    private_key := "RPRIV"
    public_key := "RPUB"
    mtu := none, table := none, preup := none, postup := none, predown := none, postdown := none }

/-- The example peer `client-a` of src/main.rs: internal address
`10.0.1.2`, allowed networks `[0.0.0.0/0]`, keepalive 25, dns `10.0.1.1`. -/
def testPeer : Peer :=
  { name := "client-a"
    internal_address := { o1 := 10, o2 := 0, o3 := 1, o4 := 2 }
    allowed_ips := [{ addr := { o1 := 0, o2 := 0, o3 := 0, o4 := 0 }, netLen := 0 }]
    dns := some { o1 := 10, o2 := 0, o3 := 1, o4 := 1 }
    persistent_keepalive := some 25
    private_key := some "APRIV"
    public_key := "APUB"
    mtu := none, table := none, preup := none, postup := none, predown := none, postdown := none }

/-- A configuration holding the example router and peer. -/
def testConfig : Configuration :=
  { metadata := none, router := testRouter, clients := [testPeer] }

/-- The canonical save target used by the persistence fixtures. -/
def testPath : String := "/etc/wireguard/wg0.toml"

/-- A configuration that was loaded from `testPath` and then had its only
client removed (the state `remove-client` saves): metadata present, no
clients. -/
def savedSmallConfig : Configuration :=
  { metadata := some { name := some "wg0", path := some testPath }
    router := testRouter
    clients := [] }

/-- The same configuration while it still had its client: its
serialization is the on-disk content before the shrinking save. -/
def savedBigConfig : Configuration :=
  { metadata := some { name := some "wg0", path := some testPath }
    router := testRouter
    clients := [testPeer] }

/-- The file system before the shrinking save: `testPath` holds the
serialization of the one-client configuration. -/
def residueFS : FS := [(testPath, serializeConfiguration savedBigConfig)]

/-- The bytes of the old content that survive past the end of the new,
shorter serialization. -/
def residue : String :=
  (serializeConfiguration savedBigConfig).drop (serializeConfiguration savedSmallConfig).length

/-- A well-formed on-disk document for the round-trip fixture: the
serialization of a client-less configuration preceded by the optional YAML
document-start marker (four bytes the canonical serialization does not
re-emit). -/
def roundtripContent : String :=
  "---\n" ++ serializeConfiguration { metadata := none, router := testRouter, clients := [] }

/-- The file system the round-trip fixture starts from. -/
def roundtripFS : FS := [(testPath, roundtripContent)]

/-- The configuration `from_path` yields on the round-trip fixture:
the parsed document with `{name, path}` metadata attached. -/
def roundtripConfig : Configuration :=
  { metadata := some { name := some "wg0", path := some testPath }
    router := testRouter
    clients := [] }

/-- The file system after saving the round-trip fixture back: the new
serialization, then the surviving tail of the old content. -/
def roundtripFSAfter : FS :=
  [(testPath,
    serializeConfiguration roundtripConfig
      ++ roundtripContent.drop (serializeConfiguration roundtripConfig).length)]

/-!
Sanity checks on the executable definitions: the decimal renderer, the
table-mode parser, and the modelled document format evaluated at the
example configuration of src/main.rs.
-/

example : natDecimal 0 = "0" := by decide
example : natDecimal 31337 = "31337" := by decide
example : TableType.parse "OFF" = some TableType.off := by decide
example : TableType.parse "Auto" = some TableType.auto := by decide
example : TableType.parse "51820" = some (TableType.custom 51820) := by decide
example : TableType.parse "x1" = none := by decide
example : parseConfiguration (serializeConfiguration testConfig) = some testConfig := by decide
example : parseConfiguration ("---\n" ++ serializeConfiguration testConfig) = some testConfig := by
  decide

/-!
Theorems.  Shared helper lemmas come first; one theorem per claim follows,
each with its witness or counterexample.
-/

/-- `Peer::interface_str` yields nothing exactly when the private key is
absent (the match in src/endpoint.rs lines 356-412). -/
theorem interface_str_eq_none_iff (p : Peer) :
    p.interface_str = none ↔ p.private_key = none := by
  cases h : p.private_key <;> simp [Peer.interface_str, h]

/-- An optional field contributes one line when set and none when unset. -/
theorem optLine_length {α : Type} (o : Option α) (f : α → String) :
    (optLine o f).length = countOpt o := by
  cases o <;> rfl

/-- Claim C1 (counterexample): on the example router and peer — keepalive
set, one allowed network — the source's `Router::peer_str` does not produce
the block the claim describes: it emits no `PersistentKeepalive` line and
renders `AllowedIPs` from the peer's internal address, not from its
allowed-networks list. -/
theorem c1_counterexample :
    Router.peer_str testRouter testPeer ≠ routerPeerStrSpec testRouter testPeer := by
  decide

/-- Claim C1 (amended): `Router::peer_str` produces, in order, the name
comment, the section header, the peer's public key line, and an
`AllowedIPs` line rendering the peer's internal address as a full-length
host network; no `PersistentKeepalive` line is emitted regardless of the
peer's keepalive, and the peer's allowed-networks list is not consulted. -/
theorem c1_router_peer_str_actual (r : Router) (peer : Peer) :
    r.peer_str peer = String.intercalate "\n"
      ["# " ++ peer.name,
       "[Peer]",
       "PublicKey = " ++ peer.public_key,
       "AllowedIPs = " ++ (IpNet.fromAddr peer.internal_address).render] := rfl

/-- Claim C2: `Peer::interface_str` returns nothing if and only if the
peer's `private_key` is absent; when the key is present it returns the
rendered interface block. -/
theorem c2_peer_interface_iff_private_key (p : Peer) :
    (p.interface_str = none ↔ p.private_key = none)
    ∧ ∀ k, p.private_key = some k →
        p.interface_str = some (String.intercalate "\n" (p.interface_lines k)) := by
  refine ⟨interface_str_eq_none_iff p, ?_⟩
  intro k hk
  simp [Peer.interface_str, hk]

/-- Witness for C2 at the example peer, whose private key is present. -/
theorem c2_witness :
    Peer.interface_str testPeer
      = some (String.intercalate "\n" (testPeer.interface_lines "APRIV")) :=
  (c2_peer_interface_iff_private_key testPeer).2 "APRIV" (by decide)

/-- Claim C3: `Configuration::client_config` looks up the first client with
the given name; it returns nothing when no client matches or the first
match owns no private key, and otherwise returns that client's interface
block, a blank line, and that client's peer block addressed to the
configuration's router. -/
theorem c3_client_config_spec (c : Configuration) (name : String) :
    c.client_by_name name = c.clients.find? (fun client => client.name == name)
    ∧ (c.client_config name = none ↔
        c.client_by_name name = none ∨
          ∃ p, c.client_by_name name = some p ∧ p.private_key = none)
    ∧ ∀ p s, c.client_by_name name = some p → p.interface_str = some s →
        c.client_config name = some (s ++ "\n\n" ++ p.peer_str c.router) := by
  refine ⟨rfl, ?_, ?_⟩
  · cases h : c.client_by_name name with
    | none => simp [Configuration.client_config, h]
    | some p =>
      cases hk : p.private_key with
      | none => simp [Configuration.client_config, h, Peer.interface_str, hk]
      | some k => simp [Configuration.client_config, h, Peer.interface_str, hk]
  · intro p s hp hs
    simp [Configuration.client_config, hp, hs]

/-- Witness for C3 at the example configuration and its client `client-a`. -/
theorem c3_witness :
    Configuration.client_config testConfig "client-a"
      = some (String.intercalate "\n" (testPeer.interface_lines "APRIV") ++ "\n\n"
          ++ testPeer.peer_str testConfig.router) :=
  (c3_client_config_spec testConfig "client-a").2.2 testPeer
    (String.intercalate "\n" (testPeer.interface_lines "APRIV"))
    (by decide) (by decide)

/-- Claim C4: `Router::interface_str` emits the name comment, the
`[Interface]` header, the address, private-key and listen-port lines in
that fixed order, then exactly one line per populated optional field among
MTU, table, preup, postup, predown, postdown in that order, and no line at
all for each unset optional field. -/
theorem c4_router_interface_layout (r : Router) :
    r.interface_str = String.intercalate "\n" r.interface_lines
    ∧ r.interface_lines =
        ["# " ++ r.name,
         "[Interface]",
         "Address = " ++ r.internal_address.render,
         "PrivateKey = " ++ r.private_key,
         "ListenPort = " ++ toString r.external_address.port]
        ++ optLine r.mtu (fun mtu => "MTU = " ++ toString mtu)
        ++ optLine r.table (fun table => "Table = " ++ table.render)
        ++ optLine r.preup (fun preup => "PreUp = " ++ preup)
        ++ optLine r.postup (fun postup => "PostUp = " ++ postup)
        ++ optLine r.predown (fun predown => "PreDown = " ++ predown)
        ++ optLine r.postdown (fun postdown => "PostDown = " ++ postdown)
    ∧ r.interface_lines.length =
        5 + countOpt r.mtu + countOpt r.table + countOpt r.preup
          + countOpt r.postup + countOpt r.predown + countOpt r.postdown := by
  refine ⟨rfl, rfl, ?_⟩
  simp [Router.interface_lines, optLine_length]
  omega

/-- The accumulator of `natDecimalAux` is a plain suffix. -/
theorem natDecimalAux_append : ∀ (fuel n : Nat) (acc : List Char),
    natDecimalAux fuel n acc = natDecimalAux fuel n [] ++ acc := by
  intro fuel
  induction fuel with
  | zero => intro n acc; simp [natDecimalAux]
  | succ f ih =>
    intro n acc
    by_cases h : n < 10
    · simp [natDecimalAux, h]
    · simp only [natDecimalAux, h, if_false]
      rw [ih (n / 10) (Char.ofNat (48 + n % 10) :: acc), ih (n / 10) [Char.ofNat (48 + n % 10)]]
      simp

/-- The characters `Char.ofNat (48 + k)`, `k < 10`, are ASCII digits. -/
theorem digitChar_isDigit : ∀ k, k < 10 → isDigitChar (Char.ofNat (48 + k)) = true := by
  decide

/-- Codepoint of a digit character built from `k < 10`. -/
theorem digitChar_toNat : ∀ k, k < 10 → (Char.ofNat (48 + k)).toNat = 48 + k := by
  decide

/-- Every character `natDecimalAux` produces is an ASCII digit. -/
theorem natDecimalAux_all_digits : ∀ (fuel n : Nat),
    (natDecimalAux fuel n []).all isDigitChar = true := by
  intro fuel
  induction fuel with
  | zero => intro n; simp [natDecimalAux]
  | succ f ih =>
    intro n
    by_cases h : n < 10
    · simp [natDecimalAux, h, digitChar_isDigit (n % 10) (Nat.mod_lt n (by norm_num))]
    · simp only [natDecimalAux, h, if_false]
      rw [natDecimalAux_append f (n / 10) [Char.ofNat (48 + n % 10)]]
      simp [List.all_append, ih (n / 10),
        digitChar_isDigit (n % 10) (Nat.mod_lt n (by norm_num))]

/-- `natDecimalAux` with positive fuel produces at least one character. -/
theorem natDecimalAux_ne_nil : ∀ (f n : Nat), natDecimalAux (f + 1) n [] ≠ [] := by
  intro f n
  by_cases h : n < 10
  · simp [natDecimalAux, h]
  · simp only [natDecimalAux, h, if_false]
    rw [natDecimalAux_append f (n / 10) [Char.ofNat (48 + n % 10)]]
    simp

/-- Reading the produced digits back yields the number: the decimal
rendering and the digit fold are mutually inverse. -/
theorem digitsToNat_natDecimalAux : ∀ (fuel n : Nat), n < fuel →
    digitsToNat (natDecimalAux fuel n []) = n := by
  intro fuel
  induction fuel with
  | zero => intro n h; exact absurd h (Nat.not_lt_zero n)
  | succ f ih =>
    intro n h
    by_cases h10 : n < 10
    · simp only [natDecimalAux, h10, if_true, digitsToNat, List.foldl]
      rw [digitChar_toNat (n % 10) (Nat.mod_lt n (by norm_num))]
      omega
    · simp only [natDecimalAux, h10, if_false]
      rw [natDecimalAux_append f (n / 10) [Char.ofNat (48 + n % 10)]]
      unfold digitsToNat
      rw [List.foldl_append]
      have hdiv : n / 10 < f := by omega
      have := ih (n / 10) hdiv
      unfold digitsToNat at this
      simp only [List.foldl, this]
      rw [digitChar_toNat (n % 10) (Nat.mod_lt n (by norm_num))]
      omega

/-- ASCII lower-casing fixes digit characters. -/
theorem lowerChar_of_digit (c : Char) (h : isDigitChar c = true) : lowerChar c = c := by
  simp [isDigitChar] at h
  simp only [lowerChar]
  rw [if_neg (by omega)]

/-- Mapping the lower-casing over an all-digit list changes nothing. -/
theorem map_lowerChar_digits (cs : List Char) (h : cs.all isDigitChar = true) :
    cs.map lowerChar = cs := by
  induction cs with
  | nil => rfl
  | cons c rest ih =>
    simp only [List.all_cons, Bool.and_eq_true] at h
    simp [lowerChar_of_digit c h.1, ih h.2]

/-- ASCII lower-casing fixes all-digit strings. -/
theorem asciiLower_digits (cs : List Char) (h : cs.all isDigitChar = true) :
    asciiLower ⟨cs⟩ = ⟨cs⟩ := by
  simp only [asciiLower]
  exact congrArg String.mk (map_lowerChar_digits cs h)

/-- An all-digit string is neither `off` nor `auto`. -/
theorem all_digits_ne_off_auto (ds : List Char) (h : ds.all isDigitChar = true) :
    (⟨ds⟩ : String) ≠ "off" ∧ (⟨ds⟩ : String) ≠ "auto" := by
  constructor
  · intro he
    have hd : ds = ("off" : String).data := congrArg String.data he
    rw [hd] at h
    exact absurd h (by decide)
  · intro he
    have hd : ds = ("auto" : String).data := congrArg String.data he
    rw [hd] at h
    exact absurd h (by decide)

/-- `parseU32` reads the decimal rendering of `n < 2^32` back as `n`. -/
theorem parseU32_natDecimal (n : Nat) (hn : n < 2 ^ 32) :
    parseU32 (natDecimal n) = some n := by
  obtain ⟨c, cs, hcons⟩ := List.exists_cons_of_ne_nil (natDecimalAux_ne_nil n n)
  have hall := natDecimalAux_all_digits (n + 1) n
  have hc : isDigitChar c = true := by
    rw [hcons] at hall
    simp only [List.all_cons, Bool.and_eq_true] at hall
    exact hall.1
  have hplus : c ≠ '+' := by
    intro hceq
    rw [hceq] at hc
    exact absurd hc (by decide)
  have hall2 : (c :: cs).all isDigitChar = true := by
    rw [← hcons]; exact hall
  have hfold : digitsToNat (c :: cs) = n := by
    rw [← hcons]; exact digitsToNat_natDecimalAux (n + 1) n (Nat.lt_succ_self n)
  have hdata : (natDecimal n).data = c :: cs := hcons
  simp only [parseU32, hdata, List.head?_cons]
  rw [if_neg (show ¬(some c = some '+') by simp [hplus])]
  rw [if_pos (show c :: cs ≠ [] ∧ (c :: cs).all isDigitChar = true from ⟨by simp, hall2⟩)]
  simp only [hfold]
  rw [if_pos hn]

/-- Claim C5: `TableType` parsing maps any case variant of `off` to `Off`
and of `auto` to `Auto`, parses any other string as an unsigned integer
yielding `Custom`, and rendering maps `Off` to `off`, `Auto` to `auto` and
`Custom n` to the decimal digits of `n`; parsing the rendering of any
(range-valid) value yields the value back. -/
theorem c5_tabletype_parse_render (s : String) (t : TableType) (n : Nat) :
    (asciiLower s = "off" → TableType.parse s = some TableType.off)
    ∧ (asciiLower s = "auto" → TableType.parse s = some TableType.auto)
    ∧ (asciiLower s ≠ "off" → asciiLower s ≠ "auto" →
        TableType.parse s = (parseU32 (asciiLower s)).map TableType.custom)
    ∧ TableType.render TableType.off = "off"
    ∧ TableType.render TableType.auto = "auto"
    ∧ TableType.render (TableType.custom n) = natDecimal n
    ∧ (tableValid t → TableType.parse (TableType.render t) = some t) := by
  refine ⟨?_, ?_, ?_, rfl, rfl, rfl, ?_⟩
  · intro h; simp [TableType.parse, h]
  · intro h; simp [TableType.parse, h]
  · intro hoff hauto
    simp [TableType.parse, hoff, hauto]
  · intro hvalid
    cases t with
    | off => decide
    | auto => decide
    | custom v =>
      have hv : v < 2 ^ 32 := hvalid
      have hall := natDecimalAux_all_digits (v + 1) v
      have hlower : asciiLower (natDecimal v) = natDecimal v :=
        asciiLower_digits (natDecimalAux (v + 1) v []) hall
      have hne1 : natDecimal v ≠ "off" := (all_digits_ne_off_auto (natDecimalAux (v + 1) v []) hall).1
      have hne2 : natDecimal v ≠ "auto" := (all_digits_ne_off_auto (natDecimalAux (v + 1) v []) hall).2
      simp only [TableType.render, TableType.parse, hlower]
      rw [if_neg hne1, if_neg hne2, parseU32_natDecimal v hv]
      rfl

/-- Witness for C5: a concrete case variant, and the round trip at a
concrete custom table number. -/
theorem c5_witness :
    TableType.parse "OFF" = some TableType.off
    ∧ TableType.parse (TableType.render (TableType.custom 51820))
        = some (TableType.custom 51820) :=
  ⟨(c5_tabletype_parse_render "OFF" TableType.off 0).1 (by decide),
   (c5_tabletype_parse_render "x" (TableType.custom 51820) 0).2.2.2.2.2.2 (by norm_num [tableValid])⟩

/-- `find?` skips a first chunk in which nothing matches. -/
theorem find?_append_of_none {α : Type} (p : α → Bool) (l1 l2 : List α)
    (h : l1.find? p = none) : (l1 ++ l2).find? p = l2.find? p := by
  induction l1 with
  | nil => simp
  | cons a l ih =>
    cases hpa : p a with
    | true =>
      rw [List.find?_cons_of_pos l hpa] at h
      exact absurd h (by simp)
    | false =>
      have hpa2 : ¬p a = true := by simp [hpa]
      rw [List.find?_cons_of_neg l hpa2] at h
      rw [List.cons_append, List.find?_cons_of_neg (l ++ l2) hpa2]
      exact ih h

/-- Claim C6: saving needs a destination: with no metadata, or metadata
without a path, `Configuration::save` fails with the no-destination error
(before touching any file), the fresh constructor records no metadata, and
a successful save implies a recorded path. -/
theorem c6_save_requires_destination (c : Configuration) (fs : FS) (r : Router) :
    (c.metadata.bind ConfigOpts.path = none →
      c.save fs = Except.error "Configuration metadata not found."
      ∨ c.save fs = Except.error "No path defined for this configuration.")
    ∧ (Configuration.new r).metadata = none
    ∧ (∀ fs2, c.save fs = Except.ok fs2 →
        ∃ m p, c.metadata = some m ∧ m.path = some p) := by
  refine ⟨?_, rfl, ?_⟩
  · intro h
    cases hm : c.metadata with
    | none => left; simp [Configuration.save, hm]
    | some m =>
      cases hp : m.path with
      | none => right; simp [Configuration.save, hm, hp]
      | some p => rw [hm] at h; simp [hp] at h
  · intro fs2 hok
    cases hm : c.metadata with
    | none => simp [Configuration.save, hm] at hok
    | some m =>
      cases hp : m.path with
      | none => simp [Configuration.save, hm, hp] at hok
      | some p => exact ⟨m, p, rfl, hp⟩

/-- Witness for C6: saving a freshly constructed configuration fails with
the no-destination error. -/
theorem c6_witness :
    Configuration.save (Configuration.new testRouter) []
      = Except.error "Configuration metadata not found."
    ∨ Configuration.save (Configuration.new testRouter) []
      = Except.error "No path defined for this configuration." :=
  (c6_save_requires_destination (Configuration.new testRouter) [] testRouter).1 (by decide)

/-- Claim C7: when the file opens but its extension is present and not the
recognized `toml` suffix, `Configuration::from_path` fails with the
invalid-extension error — whatever the file's content is, so before any
deserialization attempt. -/
theorem c7_invalid_extension_before_deserialization (fs : FS) (path content ext : String)
    (hfile : lookupFS fs path = some content)
    (hext : pathExtension path = some ext) (hne : ext ≠ "toml") :
    Configuration.from_path fs path
      = Except.error "The provided path does not end in .toml" := by
  simp [Configuration.from_path, hfile, hext, hne]

/-- Witness for C7 at a `.json` path. -/
theorem c7_witness :
    Configuration.from_path [("/etc/wireguard/wg0.json", "irrelevant content")]
        "/etc/wireguard/wg0.json"
      = Except.error "The provided path does not end in .toml" :=
  c7_invalid_extension_before_deserialization
    [("/etc/wireguard/wg0.json", "irrelevant content")]
    "/etc/wireguard/wg0.json" "irrelevant content" "json"
    (by decide) (by decide) (by decide)

/-- Claim C8 (code bug): `Configuration::save` opens its target without
truncation, so when the new serialization is shorter than the old content
the old bytes beyond the new length survive; the file then holds the
serialization plus a nonempty residue — not exactly the serialization —
and no longer parses.  The serialization itself does exclude the
metadata. -/
theorem c8_save_leaves_residue :
    Configuration.save savedSmallConfig residueFS
      = Except.ok [(testPath, serializeConfiguration savedSmallConfig ++ residue)]
    ∧ residue ≠ ""
    ∧ serializeConfiguration savedSmallConfig ++ residue
        ≠ serializeConfiguration savedSmallConfig
    ∧ parseConfiguration (serializeConfiguration savedSmallConfig ++ residue) = none
    ∧ serializeConfiguration savedSmallConfig
        = serializeConfiguration { savedSmallConfig with metadata := none } := by
  refine ⟨by decide, by decide, by decide, by decide, by decide⟩

/-- Claim C9 (code bug): on a well-formed stored document that is four
bytes longer than its canonical re-serialization (it carries the optional
document-start marker), open–save–open fails: the non-truncating save
leaves a tail of the old content behind and the second open no longer
deserializes. -/
theorem c9_roundtrip_fails :
    Configuration.from_path roundtripFS testPath = Except.ok roundtripConfig
    ∧ Configuration.save roundtripConfig roundtripFS = Except.ok roundtripFSAfter
    ∧ Configuration.from_path roundtripFSAfter testPath
        = Except.error "deserialization error" := by
  refine ⟨by decide, by decide, by decide⟩

/-- Claim C10: when `handle_add_client` is given an explicit public key,
the inserted peer carries no private key and exactly the supplied public
key, and `client_config` on its name yields nothing. -/
theorem c10_add_client_explicit_public_key (genKeys : String × String)
    (config : Configuration) (client_name : String) (internal_address : Ipv4)
    (allowed_ips : List IpNet) (dns : Option Ipv4) (keepalive : Option Nat)
    (pk : String) (fs : FS)
    (h : config.clients.all (fun client => client.name != client_name) = true) :
    ∃ peer,
      (handle_add_client genKeys config client_name internal_address allowed_ips
          dns keepalive (some pk) fs).1.clients = config.clients ++ [peer]
      ∧ peer.private_key = none
      ∧ peer.public_key = pk
      ∧ (handle_add_client genKeys config client_name internal_address allowed_ips
          dns keepalive (some pk) fs).1.client_config client_name = none := by
  have hany : config.clients.any (fun client => client.name == client_name) = false := by
    rw [List.any_eq_false]
    intro x hx
    have hx2 := List.all_eq_true.mp h x hx
    simp only [bne_iff_ne, ne_eq] at hx2
    simp [hx2]
  have hfind1 : config.clients.find? (fun p => p.name == client_name) = none := by
    rw [List.find?_eq_none]
    intro x hx
    have hx2 := List.all_eq_true.mp h x hx
    simp only [bne_iff_ne, ne_eq] at hx2
    simp [hx2]
  refine ⟨((((Peer.new genKeys client_name internal_address).with_dns dns).with_keepalive
      keepalive).with_vec_allowed_ips allowed_ips).set_private_key none |>.set_public_key pk,
    ?_, rfl, rfl, ?_⟩
  · simp [handle_add_client, hany, Configuration.push_peer]
  · simp only [handle_add_client, hany, Bool.false_eq_true, if_false]
    simp only [Configuration.client_config, Configuration.client_by_name,
      Configuration.push_peer]
    rw [find?_append_of_none _ _ _ hfind1]
    simp [List.find?_cons, Peer.interface_str, Peer.set_public_key, Peer.set_private_key,
      Peer.with_vec_allowed_ips, Peer.with_keepalive, Peer.with_dns, Peer.new]

/-- Witness for C10: adding `client-b` with a supplied public key to the
example configuration. -/
theorem c10_witness :
    ∃ peer,
      (handle_add_client ("GPRIV", "GPUB") testConfig "client-b"
          { o1 := 10, o2 := 0, o3 := 1, o4 := 3 }
          [{ addr := { o1 := 10, o2 := 0, o3 := 1, o4 := 0 }, netLen := 24 }]
          none none (some "SUPPLIEDPUB") []).1.clients = testConfig.clients ++ [peer]
      ∧ peer.private_key = none
      ∧ peer.public_key = "SUPPLIEDPUB"
      ∧ (handle_add_client ("GPRIV", "GPUB") testConfig "client-b"
          { o1 := 10, o2 := 0, o3 := 1, o4 := 3 }
          [{ addr := { o1 := 10, o2 := 0, o3 := 1, o4 := 0 }, netLen := 24 }]
          none none (some "SUPPLIEDPUB") []).1.client_config "client-b" = none :=
  c10_add_client_explicit_public_key ("GPRIV", "GPUB") testConfig "client-b"
    { o1 := 10, o2 := 0, o3 := 1, o4 := 3 }
    [{ addr := { o1 := 10, o2 := 0, o3 := 1, o4 := 0 }, netLen := 24 }]
    none none "SUPPLIEDPUB" [] (by decide)

end WgConf

